import Mathlib

/-!
# SFML + Box2D falling-boxes demo: embedding of `main.cpp`

The program creates one static ground body and 308 dynamic boxes in a Box2D
world, then repeatedly steps the world and draws every box with SFML.

Conventions of the embedding:

* `float` values are rational numbers and float operations are exact; the
  rounding of a float operation is made explicit only in `pixelRoundTrip`.
* The global `world` and the by-reference parameters are passed and returned
  explicitly.
* A `b2Body *` is the index of the body in the world's body list.
* The physics engine and the rendering library are not part of the source;
  the few operations the program calls are modelled next to their callers.
-/

namespace Demo

/-! ## Constants of `main.cpp` -/

/-- The macro `WINDOW_WIDTH` (line 4). -/
def WINDOW_WIDTH : Nat := 800

/-- The macro `WINDOW_HEIGHT` (line 5). -/
def WINDOW_HEIGHT : Nat := 600

/-- Pixels per metre, the macro `PPM` (line 8, `30.0F`). -/
def PPM : ℚ := 30

/-- Degrees per radian, the macro `DEG_PER_RAD` (line 10, `57.2957795F`). -/
def DEG_PER_RAD : ℚ := 572957795 / 10000000

/-! ## The part of the physics engine the program calls -/

/-- A 2D vector, used for `b2Vec2` and for `sf::Vector2f`. -/
structure b2Vec2 where
  x : ℚ
  y : ℚ
deriving DecidableEq

/-- Body kinds of the engine. -/
inductive b2BodyType where
  | b2_staticBody
  | b2_kinematicBody
  | b2_dynamicBody
deriving DecidableEq

/-- Modelled from the spec: the body definition of the engine (body creation
takes a position and a body type). A fresh definition describes a static body
(line 51 of the source relies on it: "Static body definition") at the origin
with angle zero, at rest and awake. -/
structure b2BodyDef where
  type : b2BodyType := b2BodyType.b2_staticBody
  position : b2Vec2 := ⟨0, 0⟩
  angle : ℚ := 0
  linearVelocity : b2Vec2 := ⟨0, 0⟩
  angularVelocity : ℚ := 0
  awake : Bool := true

/-- A convex polygon given by its vertices. -/
structure b2PolygonShape where
  vertices : List b2Vec2 := []
deriving DecidableEq

/-- Modelled from the spec: `SetAsBox(hx, hy)` makes the shape the axis-aligned
rectangle with half-width `hx` and half-height `hy` centred on the body
origin. -/
def b2PolygonShape.SetAsBox (hx hy : ℚ) : b2PolygonShape :=
  { vertices := [⟨-hx, -hy⟩, ⟨hx, -hy⟩, ⟨hx, hy⟩, ⟨-hx, hy⟩] }

/-- Modelled from the spec: the fixture definition of the engine, a shape with
its material. A fresh definition has friction 0.2 and density 0. -/
structure b2FixtureDef where
  shape : b2PolygonShape
  friction : ℚ := 2 / 10
  density : ℚ := 0

/-- A fixture attached to a body: the shape and the material it was created
from. -/
structure b2Fixture where
  shape : b2PolygonShape
  friction : ℚ
  density : ℚ
deriving DecidableEq

/-- A rigid body as far as the program observes it. -/
structure b2Body where
  type : b2BodyType
  position : b2Vec2
  angle : ℚ
  linearVelocity : b2Vec2
  angularVelocity : ℚ
  force : b2Vec2
  awake : Bool
  fixtures : List b2Fixture
deriving DecidableEq

instance : Inhabited b2Body :=
  ⟨{ type := b2BodyType.b2_staticBody, position := ⟨0, 0⟩, angle := 0,
     linearVelocity := ⟨0, 0⟩, angularVelocity := 0, force := ⟨0, 0⟩,
     awake := true, fixtures := [] }⟩

/-- The world: gravity, the bodies it owns (a body pointer is an index into
`bodies`), and a record of the `Step` calls it has received. -/
structure b2World where
  gravity : b2Vec2
  bodies : List b2Body := []
  stepLog : List (ℚ × Nat × Nat) := []

/-- Dereference of a body pointer. -/
def b2World.GetBody (world : b2World) (body : Nat) : b2Body :=
  world.bodies.getD body default

/-- The call `body->GetPosition()`. -/
def b2World.GetPosition (world : b2World) (body : Nat) : b2Vec2 :=
  (world.GetBody body).position

/-- The call `body->GetAngle()`. -/
def b2World.GetAngle (world : b2World) (body : Nat) : ℚ :=
  (world.GetBody body).angle

/-- Modelled from the spec: `world.CreateBody(&def)` adds one body built from
the definition, with no fixture and no force, and returns a pointer to it
together with the new world. -/
def b2World.CreateBody (world : b2World) (bd : b2BodyDef) : Nat × b2World :=
  (world.bodies.length,
   { world with
     bodies := world.bodies ++
       [{ type := bd.type, position := bd.position, angle := bd.angle,
          linearVelocity := bd.linearVelocity, angularVelocity := bd.angularVelocity,
          force := ⟨0, 0⟩, awake := bd.awake, fixtures := [] }] })

/-- Update of the body behind a pointer; the other bodies are untouched. -/
def b2World.updateBody (world : b2World) (body : Nat) (f : b2Body → b2Body) : b2World :=
  { world with bodies := world.bodies.set body (f (world.GetBody body)) }

/-- Modelled from the spec: `body->CreateFixture(&def)` attaches one fixture
with the shape, friction and density of the definition. -/
def b2World.CreateFixture (world : b2World) (body : Nat) (fd : b2FixtureDef) : b2World :=
  world.updateBody body fun b =>
    { b with fixtures := ⟨fd.shape, fd.friction, fd.density⟩ :: b.fixtures }

/-- Modelled from the spec: `body->CreateFixture(&shape, density)` attaches one
fixture made from a fresh fixture definition with the given shape and
density. -/
def b2World.CreateFixtureShape (world : b2World) (body : Nat) (shape : b2PolygonShape)
    (density : ℚ) : b2World :=
  world.CreateFixture body { shape := shape, density := density }

/-- Modelled from the spec: `body->ApplyForceToCenter(force, wake)`. Only a
dynamic body accumulates force, and only while awake; `wake` wakes a sleeping
body first. -/
def b2World.ApplyForceToCenter (world : b2World) (body : Nat) (force : b2Vec2)
    (wake : Bool) : b2World :=
  world.updateBody body fun b =>
    if b.type ≠ b2BodyType.b2_dynamicBody then b
    else
      let b := if wake && !b.awake then { b with awake := true } else b
      if b.awake then { b with force := ⟨b.force.x + force.x, b.force.y + force.y⟩ } else b

/-- The motion of one body over one step, as computed by the engine's solver
from the timestep, the velocity and position iteration counts, the world
before the step and the body. The solver is not part of the source, so it is
a parameter of everything below. -/
abbrev Solver := ℚ → Nat → Nat → b2World → b2Body → b2Body

/-- Modelled from the spec: `world.Step(timeStep, velocityIterations,
positionIterations)`. The engine neither creates nor destroys bodies; it
mutates position and rotation (and the velocities and sleep state behind
them) of the bodies that are not static, clears the accumulated forces, and
leaves type and fixtures alone. A static body never moves. -/
def b2World.Step (solver : Solver) (world : b2World) (timeStep : ℚ)
    (velocityIterations positionIterations : Nat) : b2World :=
  { world with
    bodies := world.bodies.map fun b =>
      if b.type = b2BodyType.b2_staticBody then b
      else
        let m := solver timeStep velocityIterations positionIterations world b
        { b with position := m.position, angle := m.angle,
                 linearVelocity := m.linearVelocity, angularVelocity := m.angularVelocity,
                 awake := m.awake, force := ⟨0, 0⟩ }
    stepLog := world.stepLog ++ [(timeStep, velocityIterations, positionIterations)] }

/-! ## The part of the rendering library the program calls -/

/-- An RGBA colour, `sf::Color`. -/
structure Color where
  r : Nat
  g : Nat
  b : Nat
  a : Nat := 255
deriving DecidableEq

/-- The colour `sf::Color::White`. -/
def Color.White : Color := ⟨255, 255, 255, 255⟩

/-- The colour `sf::Color::Green`. -/
def Color.Green : Color := ⟨0, 255, 0, 255⟩

/-- The colour `sf::Color::Blue`. -/
def Color.Blue : Color := ⟨0, 0, 255, 255⟩

/-- Modelled from the spec: `sf::RectangleShape` as the record of what its
setters were given (position, origin, size, rotation in degrees, fill
colour). A fresh shape has everything zero and a white fill. -/
structure RectangleShape where
  position : b2Vec2 := ⟨0, 0⟩
  origin : b2Vec2 := ⟨0, 0⟩
  size : b2Vec2 := ⟨0, 0⟩
  rotation : ℚ := 0
  fillColor : Color := Color.White
deriving DecidableEq

/-- The call `rect.setPosition(x, y)`. -/
def RectangleShape.setPosition (rect : RectangleShape) (x y : ℚ) : RectangleShape :=
  { rect with position := ⟨x, y⟩ }

/-- The call `rect.setOrigin(x, y)`. -/
def RectangleShape.setOrigin (rect : RectangleShape) (x y : ℚ) : RectangleShape :=
  { rect with origin := ⟨x, y⟩ }

/-- The call `rect.setSize(size)`. -/
def RectangleShape.setSize (rect : RectangleShape) (size : b2Vec2) : RectangleShape :=
  { rect with size := size }

/-- The call `rect.setRotation(angle)`. -/
def RectangleShape.setRotation (rect : RectangleShape) (angle : ℚ) : RectangleShape :=
  { rect with rotation := angle }

/-- The call `rect.setFillColor(color)`. -/
def RectangleShape.setFillColor (rect : RectangleShape) (color : Color) : RectangleShape :=
  { rect with fillColor := color }

/-- An axis-aligned rectangle on screen, `sf::FloatRect`. -/
structure FloatRect where
  left : ℚ
  top : ℚ
  width : ℚ
  height : ℚ
deriving DecidableEq

/-- Modelled from the spec: the screen area of a shape that is not rotated.
Position says where the origin point of the shape goes, so the local
rectangle `[0, size.x] x [0, size.y]` is shifted by `position - origin`. There
is no answer for a rotated shape. -/
def RectangleShape.getGlobalBounds (rect : RectangleShape) : Option FloatRect :=
  if rect.rotation = 0 then
    some ⟨rect.position.x - rect.origin.x, rect.position.y - rect.origin.y,
          rect.size.x, rect.size.y⟩
  else none

/-- Window events; only the close request matters here. -/
inductive Event where
  | Closed
  | Other
deriving DecidableEq

/-- Modelled from the spec: `sf::RenderWindow`. The window is open from its
creation until `close` is called on it. What the user does, a close request
included, is reported as an event in `events` and waits there until the
program polls it. `backBuffer` holds what was drawn since the last `clear`,
`frames` the frames presented by `display`. -/
structure RenderWindow where
  width : Nat
  height : Nat
  title : String
  isOpen : Bool := true
  framerateLimit : Nat := 0
  events : List Event := []
  backBuffer : List RectangleShape := []
  frames : List (List RectangleShape) := []

/-- The call `w.setFramerateLimit(limit)`. -/
def RenderWindow.setFramerateLimit (w : RenderWindow) (limit : Nat) : RenderWindow :=
  { w with framerateLimit := limit }

/-- The call `w.clear()`. -/
def RenderWindow.clear (w : RenderWindow) : RenderWindow :=
  { w with backBuffer := [] }

/-- The call `w.draw(rect)`. -/
def RenderWindow.draw (w : RenderWindow) (rect : RectangleShape) : RenderWindow :=
  { w with backBuffer := w.backBuffer ++ [rect] }

/-- The call `w.display()`. -/
def RenderWindow.display (w : RenderWindow) : RenderWindow :=
  { w with frames := w.frames ++ [w.backBuffer] }

/-- The call `w.close()`; the program never makes it. -/
def RenderWindow.close (w : RenderWindow) : RenderWindow :=
  { w with isOpen := false }

/-- The environment reports events to the window. -/
def RenderWindow.report (w : RenderWindow) (evs : List Event) : RenderWindow :=
  { w with events := w.events ++ evs }

/-! ## `main.cpp` -/

/-- The global `world` as constructed on line 13. -/
def world : b2World := { gravity := ⟨0, -9⟩ }

/-- The struct `Box` (lines 16-22). -/
structure Box where
  width : ℚ
  height : ℚ
  color : Color
  body : Nat
deriving DecidableEq

/-- The function `createBox` (lines 24-47). -/
def createBox (world : b2World) (x y width height density friction : ℚ) (color : Color) :
    Box × b2World :=
  let boxBodyDef : b2BodyDef :=
    { position := ⟨x / PPM, y / PPM⟩, type := b2BodyType.b2_dynamicBody }
  let boxShape := b2PolygonShape.SetAsBox (width / 2 / PPM) (height / 2 / PPM)
  let fixtureDef : b2FixtureDef :=
    { density := density, friction := friction, shape := boxShape }
  let created := world.CreateBody boxBodyDef
  let boxBody := created.1
  let world := created.2.CreateFixture boxBody fixtureDef
  (⟨width, height, color, boxBody⟩, world)

/-- The function `createGround` (lines 49-65). -/
def createGround (world : b2World) (x y width height : ℚ) (color : Color) : Box × b2World :=
  let groundBodyDef : b2BodyDef := { position := ⟨x / PPM, y / PPM⟩ }
  let groundBox := b2PolygonShape.SetAsBox (width / 2 / PPM) (height / 2 / PPM)
  let created := world.CreateBody groundBodyDef
  let groundBody := created.1
  let world := created.2.CreateFixtureShape groundBody groundBox 0
  (⟨width, height, color, groundBody⟩, world)

/-- The body of the loop of `render` (lines 72-89): the rectangle drawn for
one box. -/
def drawBox (world : b2World) (box : Box) : RectangleShape :=
  let rect : RectangleShape := {}
  let rect := rect.setPosition ((world.GetPosition box.body).x * PPM)
    (WINDOW_HEIGHT - ((world.GetPosition box.body).y * PPM))
  let rect := rect.setOrigin (box.width / 2) (box.height / 2)
  let rect := rect.setSize ⟨box.width, box.height⟩
  let rect := rect.setRotation (-1 * world.GetAngle box.body * DEG_PER_RAD)
  rect.setFillColor box.color

/-- The function `render` (lines 67-93). Both reference parameters are handed
back. -/
def render (world : b2World) (w : RenderWindow) (boxes : List Box) :
    RenderWindow × List Box :=
  let w := w.clear
  let w := boxes.foldl (fun w box => w.draw (drawBox world box)) w
  (w.display, boxes)

/-- The program state of `main`: the global world and the two locals. -/
structure Prog where
  world : b2World
  w : RenderWindow
  boxes : List Box

/-- Pixel x of the small box whose first `std::rand()` result is `r`
(line 111). -/
def smallBoxX (r : Nat) : Nat := 50 + (r % (550 - 50 + 1))

/-- Pixel y of the small box whose second `std::rand()` result is `r`
(line 111). -/
def smallBoxY (r : Nat) : Nat := 70 + (r % (550 - 70 + 1))

/-- The first `n` rounds of the loop of lines 108-113. `rand k` is the result
of call number `k` of `std::rand()`; C++ leaves open which of the two calls
of a round comes first, and the one for `x` is taken to be the earlier. -/
def spawnBoxes (rand : Nat → Nat) : Nat → b2World × List Box → b2World × List Box
  | 0, s => s
  | i + 1, s =>
    let s := spawnBoxes rand i s
    let box := createBox s.1 (smallBoxX (rand (2 * i))) (smallBoxY (rand (2 * i + 1)))
      24 24 1 (7 / 10) Color.White
    (box.2, s.2 ++ [box.1])

/-- Lines 97-120 of `main`: everything before the game loop. -/
def setup (rand : Nat → Nat) : Prog :=
  let w : RenderWindow := { width := WINDOW_WIDTH, height := WINDOW_HEIGHT, title := "SFML + Box2D" }
  let w := w.setFramerateLimit 60
  let boxes : List Box := []
  let ground := createGround world 350 50 500 100 Color.Green
  let boxes := boxes ++ [ground.1]
  let spawned := spawnBoxes rand 307 (ground.2, boxes)
  let box := createBox spawned.1 700 200 64 64 10 (7 / 10) Color.Blue
  let boxes := spawned.2 ++ [box.1]
  let world := box.2.ApplyForceToCenter box.1.body ⟨-100000, 10⟩ false
  { world := world, w := w, boxes := boxes }

/-- The body of the game loop (lines 125-128). -/
def frame (solver : Solver) (s : Prog) : Prog :=
  let world := s.world.Step solver (1 / 60) 6 3
  let r := render world s.w s.boxes
  { world := world, w := r.1, boxes := r.2 }

/-- The two states of the driver loop. -/
inductive LoopState where
  | Running
  | Closed
deriving DecidableEq

/-- The game loop (lines 123-129), run for at most `fuel` rounds starting with
round number `k`. Before the guard of round `k` is evaluated the environment
has reported the events `env k`. The answer is `Closed` with the state in which
the guard failed, or `Running` with the state reached when the fuel ran out. -/
def gameLoop (solver : Solver) (env : Nat → List Event) :
    Nat → Nat → Prog → LoopState × Prog
  | 0, _, s => (LoopState.Running, s)
  | fuel + 1, k, s =>
    let s := { s with w := s.w.report (env k) }
    if s.w.isOpen then gameLoop solver env fuel (k + 1) (frame solver s)
    else (LoopState.Closed, s)

/-- The function `main` (lines 95-131): the exit code, if `main` returns within
`fuel` rounds of the game loop. -/
def main (solver : Solver) (rand : Nat → Nat) (env : Nat → List Event) (fuel : Nat) :
    Option Int :=
  match (gameLoop solver env fuel 0 (setup rand)).1 with
  | LoopState.Closed => some 0
  | LoopState.Running => none

/-- The conversions of lines 28 and 77 applied one after the other to a pixel
coordinate, with the rounding `fl` of float arithmetic applied after the
division and after the multiplication. -/
def pixelRoundTrip (fl : ℚ → ℚ) (p : ℚ) : ℚ :=
  fl (fl (p / PPM) * PPM)

/-! ## Vocabulary of the statements -/

/-- The world after `n` calls `Step(1/60, 6, 3)`. -/
def stepped (solver : Solver) (n : Nat) (world : b2World) : b2World :=
  (fun v => b2World.Step solver v (1 / 60) 6 3)^[n] world

/-- The body `createBox` makes for a small box at pixel `(x, y)`. -/
def smallBody (x y : ℚ) : b2Body :=
  { type := b2BodyType.b2_dynamicBody, position := ⟨x / PPM, y / PPM⟩, angle := 0,
    linearVelocity := ⟨0, 0⟩, angularVelocity := 0, force := ⟨0, 0⟩, awake := true,
    fixtures := [⟨b2PolygonShape.SetAsBox (24 / 2 / PPM) (24 / 2 / PPM), 7 / 10, 1⟩] }

/-- The ground body of `main`. -/
def groundBody : b2Body :=
  { type := b2BodyType.b2_staticBody, position := ⟨350 / PPM, 50 / PPM⟩, angle := 0,
    linearVelocity := ⟨0, 0⟩, angularVelocity := 0, force := ⟨0, 0⟩, awake := true,
    fixtures := [⟨b2PolygonShape.SetAsBox (500 / 2 / PPM) (100 / 2 / PPM), 2 / 10, 0⟩] }

/-- The big blue box of `main` after the force of line 120 was applied. -/
def bigBody : b2Body :=
  { type := b2BodyType.b2_dynamicBody, position := ⟨700 / PPM, 200 / PPM⟩, angle := 0,
    linearVelocity := ⟨0, 0⟩, angularVelocity := 0, force := ⟨-100000, 10⟩, awake := true,
    fixtures := [⟨b2PolygonShape.SetAsBox (64 / 2 / PPM) (64 / 2 / PPM), 7 / 10, 10⟩] }

/-- The bodies the 307 rounds of the loop of lines 108-113 make. -/
def smallBodies (rand : Nat → Nat) : List b2Body :=
  (List.range 307).map fun i =>
    smallBody (smallBoxX (rand (2 * i))) (smallBoxY (rand (2 * i + 1)))

theorem set_length_append {α : Type} (l : List α) (a b : α) :
    (l ++ [a]).set l.length b = l ++ [b] := by
  induction l with
  | nil => rfl
  | cons h t ih => simp [List.set, ih]

theorem getD_length_append {α : Type} (l : List α) (a d : α) :
    (l ++ [a]).getD l.length d = a := by
  induction l with
  | nil => rfl
  | cons h t ih => simp [ih]

theorem createBox_fst (world : b2World) (x y width height density friction : ℚ)
    (color : Color) :
    (createBox world x y width height density friction color).1 =
      ⟨width, height, color, world.bodies.length⟩ := rfl

theorem createBox_bodies (world : b2World) (x y width height density friction : ℚ)
    (color : Color) :
    (createBox world x y width height density friction color).2 =
      { world with
        bodies := world.bodies ++
          [{ type := b2BodyType.b2_dynamicBody, position := ⟨x / PPM, y / PPM⟩, angle := 0,
             linearVelocity := ⟨0, 0⟩, angularVelocity := 0, force := ⟨0, 0⟩, awake := true,
             fixtures := [⟨b2PolygonShape.SetAsBox (width / 2 / PPM) (height / 2 / PPM),
                           friction, density⟩] }] } := by
  simp [createBox, b2World.CreateBody, b2World.CreateFixture, b2World.updateBody,
    b2World.GetBody, set_length_append, getD_length_append]

theorem createGround_fst (world : b2World) (x y width height : ℚ) (color : Color) :
    (createGround world x y width height color).1 =
      ⟨width, height, color, world.bodies.length⟩ := rfl

theorem createGround_bodies (world : b2World) (x y width height : ℚ) (color : Color) :
    (createGround world x y width height color).2 =
      { world with
        bodies := world.bodies ++
          [{ type := b2BodyType.b2_staticBody, position := ⟨x / PPM, y / PPM⟩, angle := 0,
             linearVelocity := ⟨0, 0⟩, angularVelocity := 0, force := ⟨0, 0⟩, awake := true,
             fixtures := [⟨b2PolygonShape.SetAsBox (width / 2 / PPM) (height / 2 / PPM),
                           2 / 10, 0⟩] }] } := by
  simp [createGround, b2World.CreateBody, b2World.CreateFixtureShape, b2World.CreateFixture,
    b2World.updateBody, b2World.GetBody, set_length_append, getD_length_append]

theorem foldl_draw (world : b2World) (boxes : List Box) (w : RenderWindow) :
    boxes.foldl (fun w box => w.draw (drawBox world box)) w =
      { w with backBuffer := w.backBuffer ++ boxes.map (drawBox world) } := by
  induction boxes generalizing w with
  | nil => simp
  | cons b t ih =>
    simp only [List.foldl_cons, ih]
    simp [RenderWindow.draw]

theorem render_eq (world : b2World) (w : RenderWindow) (boxes : List Box) :
    render world w boxes =
      ({ w with backBuffer := boxes.map (drawBox world),
                frames := w.frames ++ [boxes.map (drawBox world)] }, boxes) := by
  simp [render, foldl_draw, RenderWindow.clear, RenderWindow.display]

theorem stepped_zero (solver : Solver) (world : b2World) :
    stepped solver 0 world = world := rfl

theorem stepped_succ (solver : Solver) (n : Nat) (world : b2World) :
    stepped solver (n + 1) world = stepped solver n (world.Step solver (1 / 60) 6 3) := by
  simp [stepped]

theorem stepped_succ_outer (solver : Solver) (n : Nat) (world : b2World) :
    stepped solver (n + 1) world = (stepped solver n world).Step solver (1 / 60) 6 3 := by
  simp only [stepped, Function.iterate_succ_apply']

theorem gameLoop_open (solver : Solver) (env : Nat → List Event) (fuel : Nat) :
    ∀ (k : Nat) (s : Prog), s.w.isOpen = true →
      gameLoop solver env fuel k s =
        (LoopState.Running,
          { world := stepped solver fuel s.world,
            w := { s.w with
                   events := s.w.events ++ ((List.range fuel).map fun j => env (k + j)).flatten,
                   backBuffer := if fuel = 0 then s.w.backBuffer
                     else s.boxes.map (drawBox (stepped solver fuel s.world)),
                   frames := s.w.frames ++ (List.range fuel).map fun j =>
                     s.boxes.map (drawBox (stepped solver (j + 1) s.world)) },
            boxes := s.boxes }) := by
  induction fuel with
  | zero => intro k s _; simp [gameLoop, stepped]
  | succ n ih =>
    intro k s h
    have h1 : (frame solver { s with w := s.w.report (env k) }).w.isOpen = true := by
      simp [frame, render_eq, RenderWindow.report, h]
    have e : gameLoop solver env (n + 1) k s =
        gameLoop solver env n (k + 1) (frame solver { s with w := s.w.report (env k) }) := by
      simp [gameLoop, RenderWindow.report, h]
    rw [e, ih (k + 1) _ h1]
    simp only [frame, render_eq, RenderWindow.report, stepped_succ, List.range_succ_eq_map,
      List.map_map, Function.comp_def, Nat.add_assoc, Nat.add_comm 1, List.map_cons,
      List.flatten_cons, List.append_assoc, stepped_zero, Nat.add_zero, List.singleton_append,
      Nat.succ_eq_add_one, Nat.succ_ne_zero, if_false, Nat.zero_add]
    by_cases hn : n = 0
    · subst hn
      simp [stepped_zero]
    · simp [hn]

theorem Step_length (solver : Solver) (world : b2World) (dt : ℚ) (vi pi : Nat) :
    (world.Step solver dt vi pi).bodies.length = world.bodies.length := by
  simp [b2World.Step]

theorem Step_static (solver : Solver) (world : b2World) (dt : ℚ) (vi pi body : Nat)
    (h : (world.GetBody body).type = b2BodyType.b2_staticBody) :
    (world.Step solver dt vi pi).GetBody body = world.GetBody body := by
  unfold b2World.GetBody at *
  simp only [b2World.Step, List.getD_eq_getElem?_getD, List.getElem?_map] at *
  cases hb : world.bodies[body]? with
  | none => simp
  | some b =>
    rw [hb] at h
    simp only [Option.getD_some] at h
    simp [h]

theorem stepped_length (solver : Solver) (n : Nat) (world : b2World) :
    (stepped solver n world).bodies.length = world.bodies.length := by
  induction n with
  | zero => rfl
  | succ n ih => rw [stepped_succ_outer, Step_length, ih]

theorem stepped_stepLog (solver : Solver) (n : Nat) (world : b2World) :
    (stepped solver n world).stepLog = world.stepLog ++ List.replicate n (1 / 60, 6, 3) := by
  induction n with
  | zero => simp [stepped_zero]
  | succ n ih =>
    rw [stepped_succ_outer]
    simp [b2World.Step, ih, List.replicate_succ']

theorem stepped_static (solver : Solver) (n : Nat) (world : b2World) (body : Nat)
    (h : (world.GetBody body).type = b2BodyType.b2_staticBody) :
    (stepped solver n world).GetBody body = world.GetBody body := by
  induction n with
  | zero => rfl
  | succ n ih =>
    rw [stepped_succ_outer, Step_static _ _ _ _ _ _ (by rw [ih]; exact h), ih]

theorem spawnBoxes_eq (rand : Nat → Nat) (n : Nat) (s : b2World × List Box) :
    spawnBoxes rand n s =
      ({ s.1 with
         bodies := s.1.bodies ++ (List.range n).map fun i =>
           smallBody (smallBoxX (rand (2 * i))) (smallBoxY (rand (2 * i + 1))) },
       s.2 ++ (List.range n).map fun i => ⟨24, 24, Color.White, s.1.bodies.length + i⟩) := by
  induction n with
  | zero => simp [spawnBoxes]
  | succ n ih =>
    simp only [spawnBoxes, ih, createBox_fst, createBox_bodies, List.range_succ, List.map_append,
      List.length_append, List.length_map, List.length_range, List.append_assoc, List.map_cons,
      List.map_nil, smallBody]

theorem setup_boxes (rand : Nat → Nat) :
    (setup rand).boxes =
      (⟨500, 100, Color.Green, 0⟩ ::
        (List.range 307).map fun i => ⟨24, 24, Color.White, 1 + i⟩) ++
        [⟨64, 64, Color.Blue, 308⟩] := by
  simp [setup, spawnBoxes_eq, createGround_fst, createGround_bodies, createBox_fst,
    createBox_bodies, world]

theorem setup_world (rand : Nat → Nat) :
    (setup rand).world =
      { gravity := ⟨0, -9⟩,
        bodies := (groundBody :: smallBodies rand) ++ [bigBody],
        stepLog := [] } := by
  have h : (groundBody :: smallBodies rand).length = 308 := by simp [smallBodies]
  simp only [setup, spawnBoxes_eq, createGround_fst, createGround_bodies, createBox_fst,
    createBox_bodies, world, b2World.ApplyForceToCenter, b2World.updateBody, b2World.GetBody,
    List.nil_append, List.singleton_append, List.length_cons, List.length_append,
    List.length_map, List.length_range, List.length_nil]
  rw [show (0 + 1 + 307 : Nat) = (groundBody :: smallBodies rand).length from h.symm]
  simp [groundBody, smallBodies, bigBody, set_length_append, getD_length_append]

theorem setup_w (rand : Nat → Nat) :
    (setup rand).w =
      { width := 800, height := 600, title := "SFML + Box2D", isOpen := true,
        framerateLimit := 60, events := [], backBuffer := [], frames := [] } := rfl

theorem roundTrip_bound (fl : ℚ → ℚ) (u eta : ℚ) (hu : 0 ≤ u)
    (hfl : ∀ q : ℚ, |fl q - q| ≤ u * |q| + eta) (p : ℚ) :
    |pixelRoundTrip fl p - p| ≤ (2 * u + u ^ 2) * |p| + (31 + 30 * u) * eta := by
  unfold pixelRoundTrip PPM
  have h1 := hfl (p / 30)
  have h2 := hfl (fl (p / 30) * 30)
  have hp : |p / 30| = |p| / 30 := by rw [abs_div]; norm_num
  have ha : |fl (p / 30) * 30| = 30 * |fl (p / 30)| := by rw [abs_mul]; norm_num; ring
  rw [hp] at h1
  rw [ha] at h2
  have t1 : |fl (p / 30)| ≤ |p| / 30 + (u * (|p| / 30) + eta) := by
    have := abs_sub_abs_le_abs_sub (fl (p / 30)) (p / 30)
    rw [hp] at this
    linarith
  have t2 : |fl (p / 30) * 30 - p| ≤ u * |p| + 30 * eta := by
    have e : fl (p / 30) * 30 - p = 30 * (fl (p / 30) - p / 30) := by ring
    rw [e, abs_mul]
    norm_num
    linarith
  have t3 : u * (30 * |fl (p / 30)|) ≤ u * (|p| + u * |p| + 30 * eta) := by
    apply mul_le_mul_of_nonneg_left _ hu
    linarith
  have t4 := abs_sub_le (fl (fl (p / 30) * 30)) (fl (p / 30) * 30) p
  nlinarith [t1, t2, t3, t4, h2]



theorem getElem?_middle {α : Type} (a b : α) (f : Nat → α) (n i : Nat) (h : i < n) :
    ((a :: (List.range n).map f) ++ [b])[i + 1]? = some (f i) := by
  rw [List.getElem?_append_left (by simp; omega)]
  simp [List.getElem?_range h]

theorem smallBoxX_range (r : Nat) : 50 ≤ smallBoxX r ∧ smallBoxX r ≤ 550 := by
  unfold smallBoxX
  omega

theorem smallBoxY_range (r : Nat) : 70 ≤ smallBoxY r ∧ smallBoxY r ≤ 550 := by
  unfold smallBoxY
  omega

theorem setup_small_body (rand : Nat → Nat) (i : Fin 307) :
    (setup rand).world.GetBody (i.val + 1) =
      smallBody (smallBoxX (rand (2 * i.val))) (smallBoxY (rand (2 * i.val + 1))) := by
  rw [setup_world]
  simp only [b2World.GetBody, List.getD_eq_getElem?_getD, smallBodies]
  rw [getElem?_middle _ _ _ _ _ i.isLt]
  rfl

theorem setup_open (rand : Nat → Nat) : (setup rand).w.isOpen = true := rfl

theorem setup_ground_body (rand : Nat → Nat) :
    (setup rand).world.GetBody 0 = groundBody := by
  rw [setup_world]
  rfl

theorem frame_boxes (solver : Solver) (s : Prog) : (frame solver s).boxes = s.boxes := rfl

theorem frame_world (solver : Solver) (s : Prog) :
    (frame solver s).world = s.world.Step solver (1 / 60) 6 3 := rfl

/-! ## The claims -/

/-- C1: the metric coordinate `createBox` and `createGround` give a body is the
pixel coordinate divided by `PPM = 30`, and the conversion of `render` gets the
pixel coordinate back: exactly in rational arithmetic (`render` puts the
rectangle at `x` and at `WINDOW_HEIGHT - y`), and within the tolerance
`(2u + u^2)|p| + (31 + 30u) eta` when every float operation is rounded with
relative error at most `u` and absolute error at most `eta`. -/
theorem C1_pixel_metre_round_trip (world : b2World) (x y width height density friction : ℚ)
    (color : Color) (fl : ℚ → ℚ) (u eta : ℚ) (hu : 0 ≤ u)
    (hfl : ∀ q : ℚ, |fl q - q| ≤ u * |q| + eta) :
    PPM = 30 ∧
    (createBox world x y width height density friction color).2.GetPosition
        (createBox world x y width height density friction color).1.body
      = ⟨x / PPM, y / PPM⟩ ∧
    (createGround world x y width height color).2.GetPosition
        (createGround world x y width height color).1.body
      = ⟨x / PPM, y / PPM⟩ ∧
    x / PPM * PPM = x ∧ y / PPM * PPM = y ∧
    (drawBox (createBox world x y width height density friction color).2
        (createBox world x y width height density friction color).1).position
      = ⟨x, WINDOW_HEIGHT - y⟩ ∧
    (drawBox (createGround world x y width height color).2
        (createGround world x y width height color).1).position
      = ⟨x, WINDOW_HEIGHT - y⟩ ∧
    |pixelRoundTrip fl x - x| ≤ (2 * u + u ^ 2) * |x| + (31 + 30 * u) * eta ∧
    |pixelRoundTrip fl y - y| ≤ (2 * u + u ^ 2) * |y| + (31 + 30 * u) * eta := by
  have hb : (createBox world x y width height density friction color).2.GetPosition
        (createBox world x y width height density friction color).1.body
      = ⟨x / PPM, y / PPM⟩ := by
    simp [createBox_fst, createBox_bodies, b2World.GetPosition, b2World.GetBody,
      getD_length_append]
  have hg : (createGround world x y width height color).2.GetPosition
        (createGround world x y width height color).1.body
      = ⟨x / PPM, y / PPM⟩ := by
    simp [createGround_fst, createGround_bodies, b2World.GetPosition, b2World.GetBody,
      getD_length_append]
  have hx : x / PPM * PPM = x := by simp [PPM]
  have hy : y / PPM * PPM = y := by simp [PPM]
  refine ⟨rfl, hb, hg, hx, hy, ?_, ?_, roundTrip_bound fl u eta hu hfl x,
    roundTrip_bound fl u eta hu hfl y⟩
  · simp only [drawBox, RectangleShape.setPosition, RectangleShape.setOrigin,
      RectangleShape.setSize, RectangleShape.setRotation, RectangleShape.setFillColor, hb, hx, hy]
  · simp only [drawBox, RectangleShape.setPosition, RectangleShape.setOrigin,
      RectangleShape.setSize, RectangleShape.setRotation, RectangleShape.setFillColor, hg, hx, hy]

/-- C1, at a concrete input: the pixel `(50, 70)` with a rounding that is off by
the relative error `2^-24` on every operation. -/
theorem C1_pixel_metre_round_trip_witness :
    (∀ q : ℚ, |q * (1 + 1 / 16777216) - q| ≤ 1 / 16777216 * |q| + 0) ∧
    (drawBox (createBox world 50 70 24 24 1 (7 / 10) Color.White).2
        (createBox world 50 70 24 24 1 (7 / 10) Color.White).1).position
      = ⟨50, WINDOW_HEIGHT - 70⟩ ∧
    |pixelRoundTrip (fun q => q * (1 + 1 / 16777216)) 50 - 50|
      ≤ (2 * (1 / 16777216) + (1 / 16777216) ^ 2) * |50| + (31 + 30 * (1 / 16777216)) * 0 :=
  have h : ∀ q : ℚ, |q * (1 + 1 / 16777216) - q| ≤ 1 / 16777216 * |q| + 0 := by
    intro q
    have e : q * (1 + 1 / 16777216) - q = 1 / 16777216 * q := by ring
    rw [e, abs_mul, abs_of_pos (by norm_num : (0 : ℚ) < 1 / 16777216), add_zero]
  have t := C1_pixel_metre_round_trip world 50 70 24 24 1 (7 / 10) Color.White
    (fun q => q * (1 + 1 / 16777216)) (1 / 16777216) 0 (by norm_num) h
  ⟨h, t.2.2.2.2.2.1, t.2.2.2.2.2.2.2.1⟩

/-- C2: `render` presents one frame holding one rectangle per entity, in order,
and the rectangle of an entity whose body is at `(mx, my)` metres is placed at
screen `x = mx * PPM` and screen `y = WINDOW_HEIGHT - my * PPM`, with
`WINDOW_HEIGHT = 600` and `PPM = 30`. -/
theorem C2_render_position (world : b2World) (w : RenderWindow) (boxes : List Box) (box : Box) :
    (render world w boxes).1.frames = w.frames ++ [boxes.map (drawBox world)] ∧
    (drawBox world box).position =
      ⟨(world.GetPosition box.body).x * PPM,
       WINDOW_HEIGHT - (world.GetPosition box.body).y * PPM⟩ ∧
    (drawBox world box).position =
      ⟨(world.GetPosition box.body).x * 30, 600 - (world.GetPosition box.body).y * 30⟩ := by
  refine ⟨by rw [render_eq], rfl, ?_⟩
  simp [drawBox, RectangleShape.setPosition, RectangleShape.setOrigin, RectangleShape.setSize,
    RectangleShape.setRotation, RectangleShape.setFillColor, PPM, WINDOW_HEIGHT]

/-- C4: after the setup of `main` the entity sequence has 309 elements, the
ground first, then the 307 small boxes, then the big box, and the world has
309 bodies in the same order. One round of the driver loop leaves the entity
sequence as it is and the number of bodies unchanged, from any state, and
after any number of rounds of the loop of `main` both counts are still
309. -/
theorem C4_entity_count (solver : Solver) (rand : Nat → Nat) (env : Nat → List Event)
    (n : Nat) (s : Prog) :
    (setup rand).boxes.length = 309 ∧
    (setup rand).boxes =
      (⟨500, 100, Color.Green, 0⟩ ::
        (List.range 307).map fun i => ⟨24, 24, Color.White, 1 + i⟩) ++
        [⟨64, 64, Color.Blue, 308⟩] ∧
    (setup rand).world.bodies.length = 309 ∧
    (setup rand).world.bodies = (groundBody :: smallBodies rand) ++ [bigBody] ∧
    (frame solver s).boxes = s.boxes ∧
    (frame solver s).world.bodies.length = s.world.bodies.length ∧
    (render s.world s.w s.boxes).2 = s.boxes ∧
    (gameLoop solver env n 0 (setup rand)).2.boxes = (setup rand).boxes ∧
    (gameLoop solver env n 0 (setup rand)).2.boxes.length = 309 ∧
    (gameLoop solver env n 0 (setup rand)).2.world.bodies.length = 309 := by
  have hb : (setup rand).boxes.length = 309 := by simp [setup_boxes]
  have hw : (setup rand).world.bodies.length = 309 := by simp [setup_world, smallBodies]
  rw [gameLoop_open solver env n 0 (setup rand) (setup_open rand)]
  refine ⟨hb, setup_boxes rand, hw, by rw [setup_world], rfl, ?_, rfl, rfl, hb, ?_⟩
  · rw [frame_world, Step_length]
  · simp only [stepped_length, hw]

/-- C5: `createBox` adds exactly one body to the world, a dynamic body at
`(x / 30, y / 30)` with angle zero and a single fixture, the rectangle of
half-extents `(width / 2 / 30, height / 2 / 30)` with the given density and
friction; it leaves the bodies already there, the gravity and the step record
alone; the entity it returns carries width, height and colour unchanged and
its body reference is the new body. A box made at pixel `(50, 70)` has its body
within `0.0005` of `(1.667, 2.333)`. -/
theorem C5_createBox (world : b2World) (x y width height density friction : ℚ)
    (color : Color) :
    (createBox world x y width height density friction color).2.bodies =
      world.bodies ++
        [{ type := b2BodyType.b2_dynamicBody, position := ⟨x / 30, y / 30⟩, angle := 0,
           linearVelocity := ⟨0, 0⟩, angularVelocity := 0, force := ⟨0, 0⟩, awake := true,
           fixtures := [{ shape := b2PolygonShape.SetAsBox (width / 2 / 30) (height / 2 / 30),
                          friction := friction, density := density }] }] ∧
    (createBox world x y width height density friction color).2.bodies.length =
      world.bodies.length + 1 ∧
    (createBox world x y width height density friction color).2.gravity = world.gravity ∧
    (createBox world x y width height density friction color).2.stepLog = world.stepLog ∧
    (createBox world x y width height density friction color).1 =
      { width := width, height := height, color := color, body := world.bodies.length } ∧
    (createBox world x y width height density friction color).2.GetBody
        (createBox world x y width height density friction color).1.body =
      { type := b2BodyType.b2_dynamicBody, position := ⟨x / 30, y / 30⟩, angle := 0,
        linearVelocity := ⟨0, 0⟩, angularVelocity := 0, force := ⟨0, 0⟩, awake := true,
        fixtures := [{ shape := b2PolygonShape.SetAsBox (width / 2 / 30) (height / 2 / 30),
                       friction := friction, density := density }] } ∧
    |((createBox world 50 70 width height density friction color).2.GetPosition
        (createBox world 50 70 width height density friction color).1.body).x - 1667 / 1000|
      ≤ 1 / 2000 ∧
    |((createBox world 50 70 width height density friction color).2.GetPosition
        (createBox world 50 70 width height density friction color).1.body).y - 2333 / 1000|
      ≤ 1 / 2000 := by
  simp only [createBox_fst, createBox_bodies, b2World.GetPosition, b2World.GetBody,
    getD_length_append, PPM, List.length_append, List.length_singleton, true_and]
  constructor
  · rw [abs_le]; constructor <;> norm_num
  · rw [abs_le]; constructor <;> norm_num

/-- C6: the body `createGround` makes is static, keeps the single fixture of
density zero, and after any number `n` of steps of the world is still at the
position `(x / 30, y / 30)` and angle `0` of its creation. The same holds in
`main`: after any number of rounds of the driver loop the ground body is at
`(350 / 30, 50 / 30)` with angle `0`. -/
theorem C6_ground_never_moves (solver : Solver) (rand : Nat → Nat) (env : Nat → List Event)
    (world : b2World) (x y width height : ℚ) (color : Color) (n : Nat) :
    ((createGround world x y width height color).2.GetBody
        (createGround world x y width height color).1.body).type
      = b2BodyType.b2_staticBody ∧
    ((createGround world x y width height color).2.GetBody
        (createGround world x y width height color).1.body).fixtures.map
        (fun f => (f.shape, f.density))
      = [(b2PolygonShape.SetAsBox (width / 2 / 30) (height / 2 / 30), 0)] ∧
    (createGround world x y width height color).2.GetPosition
        (createGround world x y width height color).1.body = ⟨x / 30, y / 30⟩ ∧
    (createGround world x y width height color).2.GetAngle
        (createGround world x y width height color).1.body = 0 ∧
    (stepped solver n (createGround world x y width height color).2).GetPosition
        (createGround world x y width height color).1.body = ⟨x / 30, y / 30⟩ ∧
    (stepped solver n (createGround world x y width height color).2).GetAngle
        (createGround world x y width height color).1.body = 0 ∧
    (setup rand).boxes[0]? = some ⟨500, 100, Color.Green, 0⟩ ∧
    ((gameLoop solver env n 0 (setup rand)).2.world.GetBody 0).type
      = b2BodyType.b2_staticBody ∧
    (gameLoop solver env n 0 (setup rand)).2.world.GetPosition 0 = ⟨350 / 30, 50 / 30⟩ ∧
    (gameLoop solver env n 0 (setup rand)).2.world.GetAngle 0 = 0 := by
  have hg : (createGround world x y width height color).2.GetBody
        (createGround world x y width height color).1.body =
      { type := b2BodyType.b2_staticBody, position := ⟨x / 30, y / 30⟩, angle := 0,
        linearVelocity := ⟨0, 0⟩, angularVelocity := 0, force := ⟨0, 0⟩, awake := true,
        fixtures := [⟨b2PolygonShape.SetAsBox (width / 2 / 30) (height / 2 / 30),
                      2 / 10, 0⟩] } := by
    simp [createGround_fst, createGround_bodies, b2World.GetBody, getD_length_append, PPM]
  have hs := stepped_static solver n (createGround world x y width height color).2
    (createGround world x y width height color).1.body (by rw [hg])
  have hm := stepped_static solver n (setup rand).world 0
    (by rw [setup_ground_body]; rfl)
  rw [gameLoop_open solver env n 0 (setup rand) (setup_open rand)]
  simp only [b2World.GetPosition, b2World.GetAngle, hs, hm, hg, setup_ground_body,
    setup_boxes, groundBody, PPM]
  simp

/-- C7 fails on the code: the program never polls the events of the window and
never closes it, so whatever the window reports, the loop is still running
after any number of rounds and `main` does not return. When the window
reports a close request before every round, the requests pile up unread in
the event queue and the window stays open. The loop leaves through `Closed`
only from a window on which `close` was called. -/
theorem C7_close_request_ignored (solver : Solver) (rand : Nat → Nat)
    (env : Nat → List Event) (fuel k : Nat) (s : Prog) :
    (gameLoop solver env fuel 0 (setup rand)).1 = LoopState.Running ∧
    (gameLoop solver env fuel 0 (setup rand)).2.w.isOpen = true ∧
    main solver rand env fuel = none ∧
    (gameLoop solver (fun _ => [Event.Closed]) fuel 0 (setup rand)).1 = LoopState.Running ∧
    (gameLoop solver (fun _ => [Event.Closed]) fuel 0 (setup rand)).2.w.events =
      List.replicate fuel Event.Closed ∧
    main solver rand (fun _ => [Event.Closed]) fuel = none ∧
    (gameLoop solver env (fuel + 1) k { s with w := s.w.close }).1 = LoopState.Closed := by
  have hg := gameLoop_open solver env fuel 0 (setup rand) (setup_open rand)
  have h := gameLoop_open solver (fun _ => [Event.Closed]) fuel 0 (setup rand) (setup_open rand)
  refine ⟨by rw [hg], by rw [hg]; rfl, by simp only [main, hg], by rw [h], ?_, ?_, ?_⟩
  · rw [h]
    simp only [setup_w, List.nil_append]
    induction fuel with
    | zero => rfl
    | succ m ih =>
      have e1 := gameLoop_open solver env m 0 (setup rand) (setup_open rand)
      have e2 := gameLoop_open solver (fun _ => [Event.Closed]) m 0 (setup rand)
        (setup_open rand)
      rw [List.range_succ, List.map_append, List.flatten_append, ih e1 e2,
        List.replicate_succ']
      rfl
  · simp only [main, h]
  · simp [gameLoop, RenderWindow.report, RenderWindow.close]

/-- C8: every round of the driver loop is one `Step(1/60, 6, 3)` of the world
followed by one `render` of the stepped world. In `main` the window is open in
every round, so after `n` rounds the world has received exactly `n` steps, each
with timestep `1/60`, 6 velocity and 3 position iterations, and exactly `n`
frames were presented, frame `j` showing the entities in the world after
`j + 1` steps. -/
theorem C8_step_then_render (solver : Solver) (rand : Nat → Nat) (env : Nat → List Event)
    (n : Nat) (s : Prog) :
    (frame solver s).world = s.world.Step solver (1 / 60) 6 3 ∧
    (frame solver s).world.stepLog = s.world.stepLog ++ [(1 / 60, 6, 3)] ∧
    (frame solver s).w.frames =
      s.w.frames ++ [s.boxes.map (drawBox (s.world.Step solver (1 / 60) 6 3))] ∧
    (gameLoop solver env n 0 (setup rand)).1 = LoopState.Running ∧
    (gameLoop solver env n 0 (setup rand)).2.world = stepped solver n (setup rand).world ∧
    (gameLoop solver env n 0 (setup rand)).2.world.stepLog = List.replicate n (1 / 60, 6, 3) ∧
    (gameLoop solver env n 0 (setup rand)).2.w.frames =
      (List.range n).map (fun j =>
        (setup rand).boxes.map (drawBox (stepped solver (j + 1) (setup rand).world))) ∧
    (gameLoop solver env n 0 (setup rand)).2.w.frames.length = n := by
  rw [gameLoop_open solver env n 0 (setup rand) (setup_open rand)]
  refine ⟨rfl, rfl, ?_, rfl, rfl, ?_, ?_, ?_⟩
  · simp [frame, render_eq]
  · simp [stepped_stepLog, setup_world]
  · simp [setup_w]
  · simp [setup_w]

/-- C9: whatever `std::rand` returns, the pixel position `(x, y)` of a small box
satisfies `50 <= x <= 550` and `70 <= y <= 550`, all four bounds are attained,
and box number `i` of `main` (entity `i + 1`) has its body at `(x / 30, y / 30)`
for the `x` and `y` of round `i`; drawn before any step, its 24 by 24 rectangle
lies inside the 800 by 600 window. -/
theorem C9_small_box_in_window (rand : Nat → Nat) (r1 r2 : Nat) (i : Fin 307) :
    (50 ≤ smallBoxX r1 ∧ smallBoxX r1 ≤ 550) ∧
    (70 ≤ smallBoxY r2 ∧ smallBoxY r2 ≤ 550) ∧
    (smallBoxX 0 = 50 ∧ smallBoxX 500 = 550 ∧ smallBoxY 0 = 70 ∧ smallBoxY 480 = 550) ∧
    (setup rand).boxes[i.val + 1]? = some ⟨24, 24, Color.White, i.val + 1⟩ ∧
    (setup rand).world.GetPosition (i.val + 1) =
      ⟨(smallBoxX (rand (2 * i.val)) : ℚ) / 30, (smallBoxY (rand (2 * i.val + 1)) : ℚ) / 30⟩ ∧
    (drawBox (setup rand).world ⟨24, 24, Color.White, i.val + 1⟩).getGlobalBounds =
      some ⟨(smallBoxX (rand (2 * i.val)) : ℚ) - 12,
            600 - (smallBoxY (rand (2 * i.val + 1)) : ℚ) - 12, 24, 24⟩ ∧
    (0 : ℚ) ≤ (smallBoxX r1 : ℚ) - 12 ∧ (smallBoxX r1 : ℚ) - 12 + 24 ≤ WINDOW_WIDTH ∧
    (0 : ℚ) ≤ 600 - (smallBoxY r2 : ℚ) - 12 ∧
    600 - (smallBoxY r2 : ℚ) - 12 + 24 ≤ WINDOW_HEIGHT := by
  have hx := smallBoxX_range r1
  have hy := smallBoxY_range r2
  have hxq : (50 : ℚ) ≤ (smallBoxX r1 : ℚ) ∧ (smallBoxX r1 : ℚ) ≤ 550 :=
    ⟨by exact_mod_cast hx.1, by exact_mod_cast hx.2⟩
  have hyq : (70 : ℚ) ≤ (smallBoxY r2 : ℚ) ∧ (smallBoxY r2 : ℚ) ≤ 550 :=
    ⟨by exact_mod_cast hy.1, by exact_mod_cast hy.2⟩
  have hpos : (setup rand).world.GetPosition (i.val + 1) =
      ⟨(smallBoxX (rand (2 * i.val)) : ℚ) / 30,
       (smallBoxY (rand (2 * i.val + 1)) : ℚ) / 30⟩ := by
    rw [b2World.GetPosition, setup_small_body]
    simp [smallBody, PPM]
  have hang : (setup rand).world.GetAngle (i.val + 1) = 0 := by
    rw [b2World.GetAngle, setup_small_body]
    rfl
  refine ⟨hx, hy, ⟨rfl, rfl, rfl, rfl⟩, ?_, hpos, ?_, ?_, ?_, ?_, ?_⟩
  · rw [setup_boxes, getElem?_middle _ _ _ _ _ i.isLt, Nat.add_comm]
  · simp only [drawBox, RectangleShape.getGlobalBounds, RectangleShape.setPosition,
      RectangleShape.setOrigin, RectangleShape.setSize, RectangleShape.setRotation,
      RectangleShape.setFillColor, hpos, hang, PPM, WINDOW_HEIGHT]
    norm_num
  · linarith [hxq.1]
  · simp only [WINDOW_WIDTH]; push_cast; linarith [hxq.2]
  · linarith [hyq.2]
  · simp only [WINDOW_HEIGHT]; push_cast; linarith [hyq.1]

end Demo
